import Mathlib

/-!
Verification of the riptide thruster controller
(src/riptide_controllers/src/thruster_controller.cpp).

The six residual functors, the numeric constants, the file-scope globals and
the two subscriber callbacks are embedded directly from the source.  Calls
into external libraries (ceres::Solve, tf::Matrix3x3::setRotation) are
modelled from the spec, as documented on the corresponding definitions.
All arithmetic is over ℚ: the C++ code uses IEEE doubles, and the claims
below concern exact algebraic structure, not rounding.
-/

/-- The source's `struct vector { double x; double y; double z; }`
(thruster_controller.cpp lines 57–62), also used for tf::Vector3 `ang_v`. -/
structure vec3 where
  x : ℚ
  y : ℚ
  z : ℚ
  deriving DecidableEq

/-- tf::Matrix3x3 `rotation_matrix` (line 34); `mij` is `getRow(i)` component `j`
as read by the residual functors. -/
structure Mat3 where
  m00 : ℚ
  m01 : ℚ
  m02 : ℚ
  m10 : ℚ
  m11 : ℚ
  m12 : ℚ
  m20 : ℚ
  m21 : ℚ
  m22 : ℚ
  deriving DecidableEq

/-- The ten thruster-force unknowns: file-scope doubles mutated by
`ThrusterController::callback` and copied into `thrust.force` (lines 388–397). -/
structure Forces where
  surge_stbd_hi : ℚ
  surge_port_hi : ℚ
  surge_port_lo : ℚ
  surge_stbd_lo : ℚ
  sway_fwd : ℚ
  sway_aft : ℚ
  heave_port_aft : ℚ
  heave_stbd_aft : ℚ
  heave_stbd_fwd : ℚ
  heave_port_fwd : ℚ
  deriving DecidableEq

/-- The remaining file-scope mutable globals of thruster_controller.cpp:
the rotation matrix and angular velocity written by `state` (lines 34–35),
the six acceleration commands written by `callback` (lines 50–55), and the
ten thruster positions filled once from tf transforms in the constructor
(lines 76–85, 242–251). -/
structure Globals where
  rotation_matrix : Mat3
  ang_v : vec3
  cmdSurge : ℚ
  cmdSway : ℚ
  cmdHeave : ℚ
  cmdRoll : ℚ
  cmdPitch : ℚ
  cmdYaw : ℚ
  pos_surge_stbd_hi : vec3
  pos_surge_port_hi : vec3
  pos_surge_port_lo : vec3
  pos_surge_stbd_lo : vec3
  pos_sway_fwd : vec3
  pos_sway_aft : vec3
  pos_heave_port_aft : vec3
  pos_heave_stbd_aft : vec3
  pos_heave_stbd_fwd : vec3
  pos_heave_port_fwd : vec3
  deriving DecidableEq

/-- geometry_msgs::Accel, the payload of a command event (lines 331–339). -/
structure AccelMsg where
  linear_x : ℚ
  linear_y : ℚ
  linear_z : ℚ
  angular_x : ℚ
  angular_y : ℚ
  angular_z : ℚ
  deriving DecidableEq

/-- sensor_msgs::Imu as consumed by `ThrusterController::state` (lines 323–329):
an orientation quaternion and an angular-velocity vector. -/
structure ImuMsg where
  orientation_x : ℚ
  orientation_y : ℚ
  orientation_z : ℚ
  orientation_w : ℚ
  angular_velocity_x : ℚ
  angular_velocity_y : ℚ
  angular_velocity_z : ℚ
  deriving DecidableEq

/-- riptide_msgs::ThrustStamped as published on `command/thrust` (lines 385–399);
the timestamp is wall-clock time and is not modelled. -/
structure ThrustStamped where
  force : Forces
  deriving DecidableEq

/-- Thrust lower limit, N (line 38). -/
def MIN_THRUST : ℚ := -5.0

/-- Thrust upper limit, N (line 39). -/
def MAX_THRUST : ℚ := 5.0

/-- Vehicle mass, kg (line 42). -/
def MASS : ℚ := 34.47940950

/-- Moment of inertia about x (line 45). -/
def Ixx : ℚ := 1.335

/-- Moment of inertia about y (line 46). -/
def Iyy : ℚ := 1.501

/-- Moment of inertia about z (line 47). -/
def Izz : ℚ := 0.6189

/-- Surge residual functor (lines 91–107).  The functor receives all ten
force parameters; it reads only `surge_port_lo`, `surge_stbd_lo`,
`heave_port_fwd`, `heave_stbd_fwd`. -/
def surge (G : Globals) (u : Forces) : ℚ :=
  (G.rotation_matrix.m00 * (u.surge_port_lo + u.surge_stbd_lo) +
      G.rotation_matrix.m02 * (u.heave_port_fwd + u.heave_stbd_fwd)) / MASS -
    G.cmdSurge

/-- Sway residual functor (lines 109–125). -/
def sway (G : Globals) (u : Forces) : ℚ :=
  (G.rotation_matrix.m10 * (u.surge_port_lo + u.surge_stbd_lo) +
      G.rotation_matrix.m12 * (u.heave_port_fwd + u.heave_stbd_fwd)) / MASS -
    G.cmdSway

/-- Heave residual functor (lines 127–143). -/
def heave (G : Globals) (u : Forces) : ℚ :=
  (G.rotation_matrix.m20 * (u.surge_port_lo + u.surge_stbd_lo) +
      G.rotation_matrix.m22 * (u.heave_port_fwd + u.heave_stbd_fwd)) / MASS -
    G.cmdHeave

/-- Roll residual functor (lines 146–159). -/
def roll (G : Globals) (u : Forces) : ℚ :=
  (u.heave_port_fwd * G.pos_heave_port_fwd.y + u.heave_stbd_fwd * G.pos_heave_stbd_fwd.y +
      Iyy * G.ang_v.y * G.ang_v.z - Izz * G.ang_v.y * G.ang_v.z) / Ixx -
    G.cmdRoll

/-- Pitch residual functor (lines 161–176). -/
def pitch (G : Globals) (u : Forces) : ℚ :=
  (u.surge_port_lo * G.pos_surge_port_lo.z + u.surge_stbd_lo * G.pos_surge_stbd_lo.z +
      u.heave_port_fwd * (-G.pos_heave_port_fwd.x) + u.heave_stbd_fwd * (-G.pos_heave_stbd_fwd.x) +
      Izz * G.ang_v.x * G.ang_v.z - Ixx * G.ang_v.x * G.ang_v.z) / Iyy -
    G.cmdPitch

/-- Yaw residual functor (lines 178–191). -/
def yaw (G : Globals) (u : Forces) : ℚ :=
  (u.surge_port_lo * (-G.pos_surge_port_lo.y) + u.surge_stbd_lo * (-G.pos_surge_stbd_lo.y) +
      Ixx * G.ang_v.x * G.ang_v.y - Iyy * G.ang_v.x * G.ang_v.y) / Izz -
    G.cmdYaw

/-- Pointwise affine combination `a*u + (1-a)*v` of two force vectors. -/
def affComb (a : ℚ) (u v : Forces) : Forces where
  surge_stbd_hi := a * u.surge_stbd_hi + (1 - a) * v.surge_stbd_hi
  surge_port_hi := a * u.surge_port_hi + (1 - a) * v.surge_port_hi
  surge_port_lo := a * u.surge_port_lo + (1 - a) * v.surge_port_lo
  surge_stbd_lo := a * u.surge_stbd_lo + (1 - a) * v.surge_stbd_lo
  sway_fwd := a * u.sway_fwd + (1 - a) * v.sway_fwd
  sway_aft := a * u.sway_aft + (1 - a) * v.sway_aft
  heave_port_aft := a * u.heave_port_aft + (1 - a) * v.heave_port_aft
  heave_stbd_aft := a * u.heave_stbd_aft + (1 - a) * v.heave_stbd_aft
  heave_stbd_fwd := a * u.heave_stbd_fwd + (1 - a) * v.heave_stbd_fwd
  heave_port_fwd := a * u.heave_port_fwd + (1 - a) * v.heave_port_fwd

/-- The angular-velocity snapshot zeroed out, leaving everything else as is. -/
def withZeroAngV (G : Globals) : Globals := { G with ang_v := ⟨0, 0, 0⟩ }

/-- The all-zero force vector, the initial point of every solve (lines 343–352). -/
def zeroForces : Forces := ⟨0, 0, 0, 0, 0, 0, 0, 0, 0, 0⟩

/-- Unit direction along `surge_stbd_hi`. -/
def e_surge_stbd_hi : Forces := { zeroForces with surge_stbd_hi := 1 }

/-- Unit direction along `surge_port_hi`. -/
def e_surge_port_hi : Forces := { zeroForces with surge_port_hi := 1 }

/-- Unit direction along `surge_port_lo`. -/
def e_surge_port_lo : Forces := { zeroForces with surge_port_lo := 1 }

/-- Unit direction along `surge_stbd_lo`. -/
def e_surge_stbd_lo : Forces := { zeroForces with surge_stbd_lo := 1 }

/-- Unit direction along `sway_fwd`. -/
def e_sway_fwd : Forces := { zeroForces with sway_fwd := 1 }

/-- Unit direction along `sway_aft`. -/
def e_sway_aft : Forces := { zeroForces with sway_aft := 1 }

/-- Unit direction along `heave_port_aft`. -/
def e_heave_port_aft : Forces := { zeroForces with heave_port_aft := 1 }

/-- Unit direction along `heave_stbd_aft`. -/
def e_heave_stbd_aft : Forces := { zeroForces with heave_stbd_aft := 1 }

/-- Unit direction along `heave_stbd_fwd`. -/
def e_heave_stbd_fwd : Forces := { zeroForces with heave_stbd_fwd := 1 }

/-- Unit direction along `heave_port_fwd`. -/
def e_heave_port_fwd : Forces := { zeroForces with heave_port_fwd := 1 }

/-- Projection of a scalar into `[lo, hi]`, as Ceres applies to each bounded
parameter (SetParameterLowerBound/SetParameterUpperBound, lines 282–312). -/
def clampQ (lo hi x : ℚ) : ℚ := max lo (min x hi)

/-- Modelled from the spec: the internal step-size parameter of the iterative
least-squares method (ceres::Solve is an external library; any fixed positive
value yields the properties claimed of the solve). -/
def stepSize : ℚ := 1 / 100

/-- Coefficient of a residual along a direction `e`, extracted by evaluating
the residual itself: `r (e) - r 0`.  For the affine residuals of this problem
this is the exact directional derivative. -/
def coeffAlong (r : Globals → Forces → ℚ) (G : Globals) (e : Forces) : ℚ :=
  r G e - r G zeroForces

/-- Gradient of the sum of squared residuals along direction `e`, built from
the six residual functors registered with the problem (lines 260–277). -/
def gradAlong (G : Globals) (u : Forces) (e : Forces) : ℚ :=
  2 * (surge G u * coeffAlong surge G e + sway G u * coeffAlong sway G e +
      heave G u * coeffAlong heave G e + roll G u * coeffAlong roll G e +
      pitch G u * coeffAlong pitch G e + yaw G u * coeffAlong yaw G e)

/-- Modelled from the spec: one iteration of ceres::Solve (external Ceres
library; src/ holds only the problem setup, lines 255–316, and the call at
line 371).  Per the spec the solver is a bounded least-squares iteration that
projects each parameter into its box exactly: one gradient step on the sum of
squared residuals followed by clamping into [MIN_THRUST, MAX_THRUST]. -/
def solveStep (G : Globals) (u : Forces) : Forces where
  surge_stbd_hi :=
    clampQ MIN_THRUST MAX_THRUST (u.surge_stbd_hi - stepSize * gradAlong G u e_surge_stbd_hi)
  surge_port_hi :=
    clampQ MIN_THRUST MAX_THRUST (u.surge_port_hi - stepSize * gradAlong G u e_surge_port_hi)
  surge_port_lo :=
    clampQ MIN_THRUST MAX_THRUST (u.surge_port_lo - stepSize * gradAlong G u e_surge_port_lo)
  surge_stbd_lo :=
    clampQ MIN_THRUST MAX_THRUST (u.surge_stbd_lo - stepSize * gradAlong G u e_surge_stbd_lo)
  sway_fwd :=
    clampQ MIN_THRUST MAX_THRUST (u.sway_fwd - stepSize * gradAlong G u e_sway_fwd)
  sway_aft :=
    clampQ MIN_THRUST MAX_THRUST (u.sway_aft - stepSize * gradAlong G u e_sway_aft)
  heave_port_aft :=
    clampQ MIN_THRUST MAX_THRUST (u.heave_port_aft - stepSize * gradAlong G u e_heave_port_aft)
  heave_stbd_aft :=
    clampQ MIN_THRUST MAX_THRUST (u.heave_stbd_aft - stepSize * gradAlong G u e_heave_stbd_aft)
  heave_stbd_fwd :=
    clampQ MIN_THRUST MAX_THRUST (u.heave_stbd_fwd - stepSize * gradAlong G u e_heave_stbd_fwd)
  heave_port_fwd :=
    clampQ MIN_THRUST MAX_THRUST (u.heave_port_fwd - stepSize * gradAlong G u e_heave_port_fwd)

/-- The solver iteration cap, `options.max_num_iterations = 100` (line 315). -/
def options_max_num_iterations : ℕ := 100

/-- Modelled from the spec: ceres::Solve (line 371, external library) — run
the bounded projected iteration from the given initial point for at most the
configured number of iterations and return the point reached at the cap. -/
def solveForces (G : Globals) (u : Forces) : Forces :=
  (solveStep G)^[options_max_num_iterations] u

/-- The command-copy prefix of `ThrusterController::callback` (lines 333–339). -/
def setCmds (G : Globals) (a : AccelMsg) : Globals :=
  { G with
    cmdSurge := a.linear_x
    cmdSway := a.linear_y
    cmdHeave := a.linear_z
    cmdRoll := a.angular_x
    cmdPitch := a.angular_y
    cmdYaw := a.angular_z }

/-- The force re-initialization of `ThrusterController::callback`
(lines 343–352): every one of the ten force globals is overwritten with 0.0
before the solve, whatever it held. -/
def reinitForces (prev : Forces) : Forces :=
  { prev with
    surge_stbd_hi := 0
    surge_port_hi := 0
    surge_port_lo := 0
    surge_stbd_lo := 0
    sway_fwd := 0
    sway_aft := 0
    heave_port_aft := 0
    heave_stbd_aft := 0
    heave_stbd_fwd := 0
    heave_port_fwd := 0 }

/-- `ThrusterController::callback` (lines 331–400): copy the commanded
accelerations into the globals, re-initialize the ten force unknowns to zero,
solve, and publish exactly one ThrustStamped message carrying the solved
forces.  Returns the updated globals, the force globals after the solve, and
the list of messages published during the call. -/
def callback (G : Globals) (prev : Forces) (a : AccelMsg) :
    Globals × Forces × List ThrustStamped :=
  let Gp := setCmds G a
  let f := solveForces Gp (reinitForces prev)
  (Gp, f, [⟨f⟩])

/-- Transpose of a `Mat3`. -/
def Mat3.transpose (A : Mat3) : Mat3 :=
  ⟨A.m00, A.m10, A.m20, A.m01, A.m11, A.m21, A.m02, A.m12, A.m22⟩

/-- Product of two `Mat3`. -/
def Mat3.mul (A B : Mat3) : Mat3 where
  m00 := A.m00 * B.m00 + A.m01 * B.m10 + A.m02 * B.m20
  m01 := A.m00 * B.m01 + A.m01 * B.m11 + A.m02 * B.m21
  m02 := A.m00 * B.m02 + A.m01 * B.m12 + A.m02 * B.m22
  m10 := A.m10 * B.m00 + A.m11 * B.m10 + A.m12 * B.m20
  m11 := A.m10 * B.m01 + A.m11 * B.m11 + A.m12 * B.m21
  m12 := A.m10 * B.m02 + A.m11 * B.m12 + A.m12 * B.m22
  m20 := A.m20 * B.m00 + A.m21 * B.m10 + A.m22 * B.m20
  m21 := A.m20 * B.m01 + A.m21 * B.m11 + A.m22 * B.m21
  m22 := A.m20 * B.m02 + A.m21 * B.m12 + A.m22 * B.m22

/-- The identity `Mat3`, as set by `rotation_matrix.setIdentity()` (line 203). -/
def Mat3.identity : Mat3 := ⟨1, 0, 0, 0, 1, 0, 0, 0, 1⟩

/-- Determinant of a `Mat3`. -/
def Mat3.det (A : Mat3) : ℚ :=
  A.m00 * (A.m11 * A.m22 - A.m12 * A.m21) - A.m01 * (A.m10 * A.m22 - A.m12 * A.m20) +
    A.m02 * (A.m10 * A.m21 - A.m11 * A.m20)

/-- Modelled from the spec: tf::Quaternion::normalized composed with
tf::Matrix3x3::setRotation (line 327; both are external tf/Bullet library
code).  setRotation uses the standard Bullet quaternion-to-matrix formula,
which scales by `s = 2/|q|²` and is therefore invariant under rescaling of
the quaternion; in exact arithmetic, applying it to the normalized quaternion
gives the same matrix as applying it to the raw quaternion, which is what
this definition computes. -/
def matrixOfQuat (qx qy qz qw : ℚ) : Mat3 :=
  let d := qx * qx + qy * qy + qz * qz + qw * qw
  let s := 2 / d
  let xs := qx * s
  let ys := qy * s
  let zs := qz * s
  let wx := qw * xs
  let wy := qw * ys
  let wz := qw * zs
  let xx := qx * xs
  let xy := qx * ys
  let xz := qx * zs
  let yy := qy * ys
  let yz := qy * zs
  let zz := qz * zs
  ⟨1 - (yy + zz), xy - wz, xz + wy,
    xy + wz, 1 - (xx + zz), yz - wx,
    xz - wy, yz + wx, 1 - (xx + yy)⟩

/-- `ThrusterController::state` (lines 323–329): store the rotation matrix
built from the (normalized) message orientation quaternion, and the message
angular velocity.  No validation of any kind is performed on the inputs. -/
def state (G : Globals) (m : ImuMsg) : Globals :=
  { G with
    rotation_matrix :=
      matrixOfQuat m.orientation_x m.orientation_y m.orientation_z m.orientation_w
    ang_v := ⟨m.angular_velocity_x, m.angular_velocity_y, m.angular_velocity_z⟩ }

/-- The globals right after the ThrusterController constructor ran
(lines 201–321): identity rotation and zero angular velocity (lines 203–204),
the initial 0.0 command values (lines 50–55), and the ten thruster positions
obtained from tf transforms (lines 242–251), taken here as parameters. -/
def initGlobals (psh pph ppl psl psf psa hpa hsa hsf hpf : vec3) : Globals where
  rotation_matrix := Mat3.identity
  ang_v := ⟨0, 0, 0⟩
  cmdSurge := 0
  cmdSway := 0
  cmdHeave := 0
  cmdRoll := 0
  cmdPitch := 0
  cmdYaw := 0
  pos_surge_stbd_hi := psh
  pos_surge_port_hi := pph
  pos_surge_port_lo := ppl
  pos_surge_stbd_lo := psl
  pos_sway_fwd := psf
  pos_sway_aft := psa
  pos_heave_port_aft := hpa
  pos_heave_stbd_aft := hsa
  pos_heave_stbd_fwd := hsf
  pos_heave_port_fwd := hpf

/-- Every force within the thruster bounds (the constraints of lines 282–312). -/
def forcesInBounds (f : Forces) : Prop :=
  (MIN_THRUST ≤ f.surge_stbd_hi ∧ f.surge_stbd_hi ≤ MAX_THRUST) ∧
  (MIN_THRUST ≤ f.surge_port_hi ∧ f.surge_port_hi ≤ MAX_THRUST) ∧
  (MIN_THRUST ≤ f.surge_port_lo ∧ f.surge_port_lo ≤ MAX_THRUST) ∧
  (MIN_THRUST ≤ f.surge_stbd_lo ∧ f.surge_stbd_lo ≤ MAX_THRUST) ∧
  (MIN_THRUST ≤ f.sway_fwd ∧ f.sway_fwd ≤ MAX_THRUST) ∧
  (MIN_THRUST ≤ f.sway_aft ∧ f.sway_aft ≤ MAX_THRUST) ∧
  (MIN_THRUST ≤ f.heave_port_aft ∧ f.heave_port_aft ≤ MAX_THRUST) ∧
  (MIN_THRUST ≤ f.heave_stbd_aft ∧ f.heave_stbd_aft ≤ MAX_THRUST) ∧
  (MIN_THRUST ≤ f.heave_stbd_fwd ∧ f.heave_stbd_fwd ≤ MAX_THRUST) ∧
  (MIN_THRUST ≤ f.heave_port_fwd ∧ f.heave_port_fwd ≤ MAX_THRUST)

/-- The six force unknowns that appear as functor parameters but are read by
no residual expression are all zero. -/
def unusedZero (f : Forces) : Prop :=
  f.surge_stbd_hi = 0 ∧ f.surge_port_hi = 0 ∧ f.sway_fwd = 0 ∧ f.sway_aft = 0 ∧
    f.heave_port_aft = 0 ∧ f.heave_stbd_aft = 0

/-- The zero 3-vector. -/
def zeroVec : vec3 := ⟨0, 0, 0⟩

/-- Globals as constructed with all thruster positions at the origin. -/
def G_init0 : Globals :=
  initGlobals zeroVec zeroVec zeroVec zeroVec zeroVec zeroVec zeroVec zeroVec zeroVec zeroVec

/-- A reachable global state: the constructor state after one inertial event
carrying the (non-unit) quaternion (1, 2, 3, 4) and zero angular velocity. -/
def G_cx : Globals := state G_init0 ⟨1, 2, 3, 4, 0, 0, 0⟩

/-- One newton on the sway_fwd thruster, nothing anywhere else. -/
def u_cx : Forces := { zeroForces with sway_fwd := 1 }

/-- An inertial event with a wildly out-of-range angular velocity
(10⁹ rad/s about x). -/
def malformedImu : ImuMsg := ⟨0, 0, 0, 1, 1000000000, 0, 0⟩

/-- Claim C5: the angular residual equations include exactly the rigid-body
gyroscopic cross terms — the roll residual includes `(Iyy - Izz)*wy*wz/Ixx`,
the pitch residual includes `(Izz - Ixx)*wx*wz/Iyy`, and the yaw residual
includes `(Ixx - Iyy)*wx*wy/Izz`: each angular residual equals its value at
zero angular velocity plus exactly that gyroscopic term. -/
theorem angular_residuals_have_gyroscopic_terms (G : Globals) (u : Forces) :
    roll G u = roll (withZeroAngV G) u + (Iyy - Izz) * G.ang_v.y * G.ang_v.z / Ixx ∧
    pitch G u = pitch (withZeroAngV G) u + (Izz - Ixx) * G.ang_v.x * G.ang_v.z / Iyy ∧
    yaw G u = yaw (withZeroAngV G) u + (Ixx - Iyy) * G.ang_v.x * G.ang_v.y / Izz := by
  refine ⟨?_, ?_, ?_⟩ <;> simp only [roll, pitch, yaw, withZeroAngV] <;> ring

/-- Claim C6: for every fixed vehicle state and command, each of the six
residual functions is affine (degree at most one) in the ten thruster-force
unknowns: `residual (a*u + (1-a)*v) = a * residual u + (1-a) * residual v`. -/
theorem residuals_affine_in_forces (G : Globals) (a : ℚ) (u v : Forces) :
    surge G (affComb a u v) = a * surge G u + (1 - a) * surge G v ∧
    sway G (affComb a u v) = a * sway G u + (1 - a) * sway G v ∧
    heave G (affComb a u v) = a * heave G u + (1 - a) * heave G v ∧
    roll G (affComb a u v) = a * roll G u + (1 - a) * roll G v ∧
    pitch G (affComb a u v) = a * pitch G u + (1 - a) * pitch G v ∧
    yaw G (affComb a u v) = a * yaw G u + (1 - a) * yaw G v := by
  refine ⟨?_, ?_, ?_, ?_, ?_, ?_⟩ <;>
    simp only [surge, sway, heave, roll, pitch, yaw, affComb] <;> ring

/-- The clamp lands inside the interval whenever the interval is nonempty. -/
theorem clampQ_mem (lo hi x : ℚ) (h : lo ≤ hi) :
    lo ≤ clampQ lo hi x ∧ clampQ lo hi x ≤ hi :=
  ⟨le_max_left lo _, max_le h (min_le_right x hi)⟩

/-- Every output of one solver iteration respects the thruster bounds. -/
theorem solveStep_inBounds (G : Globals) (u : Forces) : forcesInBounds (solveStep G u) := by
  have h : MIN_THRUST ≤ MAX_THRUST := by norm_num [MIN_THRUST, MAX_THRUST]
  exact ⟨clampQ_mem _ _ _ h, clampQ_mem _ _ _ h, clampQ_mem _ _ _ h, clampQ_mem _ _ _ h,
    clampQ_mem _ _ _ h, clampQ_mem _ _ _ h, clampQ_mem _ _ _ h, clampQ_mem _ _ _ h,
    clampQ_mem _ _ _ h, clampQ_mem _ _ _ h⟩

/-- The solve returns the point after the last of its capped iterations. -/
theorem solveForces_eq_last_step (G : Globals) (u : Forces) :
    solveForces G u = solveStep G ((solveStep G)^[99] u) := by
  show (solveStep G)^[99 + 1] u = solveStep G ((solveStep G)^[99] u)
  rw [Function.iterate_succ_apply']

/-- The solve always lands inside the thruster bounds. -/
theorem solveForces_inBounds (G : Globals) (u : Forces) : forcesInBounds (solveForces G u) := by
  rw [solveForces_eq_last_step]
  exact solveStep_inBounds G _

/-- The gradient is zero along each of the six force directions that no
residual reads. -/
theorem gradAlong_unused_zero (G : Globals) (u : Forces) :
    gradAlong G u e_surge_stbd_hi = 0 ∧ gradAlong G u e_surge_port_hi = 0 ∧
    gradAlong G u e_sway_fwd = 0 ∧ gradAlong G u e_sway_aft = 0 ∧
    gradAlong G u e_heave_port_aft = 0 ∧ gradAlong G u e_heave_stbd_aft = 0 := by
  refine ⟨?_, ?_, ?_, ?_, ?_, ?_⟩ <;>
    simp [gradAlong, coeffAlong, surge, sway, heave, roll, pitch, yaw, zeroForces,
      e_surge_stbd_hi, e_surge_port_hi, e_sway_fwd, e_sway_aft, e_heave_port_aft,
      e_heave_stbd_aft]

/-- Projecting zero into the thruster box gives zero. -/
theorem clampQ_zero : clampQ MIN_THRUST MAX_THRUST 0 = 0 := by
  norm_num [clampQ, MIN_THRUST, MAX_THRUST]

/-- One solver iteration keeps the six unread force unknowns at zero. -/
theorem solveStep_preserves_unusedZero (G : Globals) (u : Forces) (h : unusedZero u) :
    unusedZero (solveStep G u) := by
  obtain ⟨h1, h2, h3, h4, h5, h6⟩ := h
  obtain ⟨g1, g2, g3, g4, g5, g6⟩ := gradAlong_unused_zero G u
  refine ⟨?_, ?_, ?_, ?_, ?_, ?_⟩ <;>
    simp [solveStep, h1, h2, h3, h4, h5, h6, g1, g2, g3, g4, g5, g6, clampQ_zero]

/-- Any number of solver iterations keeps the six unread unknowns at zero. -/
theorem iterate_preserves_unusedZero (G : Globals) (n : ℕ) (u : Forces) (h : unusedZero u) :
    unusedZero ((solveStep G)^[n] u) := by
  induction n generalizing u with
  | zero => simpa using h
  | succ n ih =>
    rw [Function.iterate_succ_apply]
    exact ih _ (solveStep_preserves_unusedZero G u h)

/-- Re-initialization erases every previously held force value. -/
theorem reinitForces_eq_zero (prev : Forces) : reinitForces prev = zeroForces := rfl

/-- With all commands zero and zero angular velocity, every residual vanishes
at the zero force vector. -/
theorem residuals_vanish_at_zero (G : Globals) (hw : G.ang_v = ⟨0, 0, 0⟩)
    (h1 : G.cmdSurge = 0) (h2 : G.cmdSway = 0) (h3 : G.cmdHeave = 0)
    (h4 : G.cmdRoll = 0) (h5 : G.cmdPitch = 0) (h6 : G.cmdYaw = 0) :
    surge G zeroForces = 0 ∧ sway G zeroForces = 0 ∧ heave G zeroForces = 0 ∧
    roll G zeroForces = 0 ∧ pitch G zeroForces = 0 ∧ yaw G zeroForces = 0 := by
  refine ⟨?_, ?_, ?_, ?_, ?_, ?_⟩ <;>
    simp [surge, sway, heave, roll, pitch, yaw, zeroForces, hw, h1, h2, h3, h4, h5, h6]

/-- With all commands zero and zero angular velocity, the zero force vector is
a fixed point of the solver iteration. -/
theorem solveStep_fixes_zero (G : Globals) (hw : G.ang_v = ⟨0, 0, 0⟩)
    (h1 : G.cmdSurge = 0) (h2 : G.cmdSway = 0) (h3 : G.cmdHeave = 0)
    (h4 : G.cmdRoll = 0) (h5 : G.cmdPitch = 0) (h6 : G.cmdYaw = 0) :
    solveStep G zeroForces = zeroForces := by
  obtain ⟨r1, r2, r3, r4, r5, r6⟩ := residuals_vanish_at_zero G hw h1 h2 h3 h4 h5 h6
  have hg : ∀ e : Forces, gradAlong G zeroForces e = 0 := by
    intro e
    simp [gradAlong, r1, r2, r3, r4, r5, r6]
  simp only [solveStep, hg, mul_zero, sub_zero]
  simp [zeroForces, clampQ_zero]

/-- Claim C1: every force in the published ThrustSolution lies within its
thruster's bounds, MIN_THRUST ≤ f ≤ MAX_THRUST (−5 N ≤ f ≤ 5 N), for every
command event, whatever the vehicle state and command — in particular also
when the unconstrained optimum would violate a bound, since each iterate is
projected into the box. -/
theorem published_forces_within_bounds (G : Globals) (prev : Forces) (a : AccelMsg) :
    forcesInBounds (callback G prev a).2.1 :=
  solveForces_inBounds (setCmds G a) (reinitForces prev)

/-- Claim C3: two command events with identical inputs publish identical force
vectors — the output does not depend on the force values carried over from any
previous solve, because all ten unknowns are re-initialized to zero before the
solve (lines 343–352), so the whole callback result is a function of the
command, the vehicle-state snapshot and the geometry alone. -/
theorem callback_deterministic_no_hidden_state (G : Globals) (a : AccelMsg)
    (p q : Forces) : callback G p a = callback G q a := by
  unfold callback
  rw [reinitForces_eq_zero, reinitForces_eq_zero]

/-- Claim C4: a command event with all six accelerations zero, at zero angular
velocity, publishes the all-zero force vector, and all six residuals vanish
at the published solution. -/
theorem zero_command_gives_zero_solution (G : Globals) (prev : Forces)
    (hw : G.ang_v = ⟨0, 0, 0⟩) :
    (callback G prev ⟨0, 0, 0, 0, 0, 0⟩).2.1 = zeroForces ∧
    surge (setCmds G ⟨0, 0, 0, 0, 0, 0⟩) (callback G prev ⟨0, 0, 0, 0, 0, 0⟩).2.1 = 0 ∧
    sway (setCmds G ⟨0, 0, 0, 0, 0, 0⟩) (callback G prev ⟨0, 0, 0, 0, 0, 0⟩).2.1 = 0 ∧
    heave (setCmds G ⟨0, 0, 0, 0, 0, 0⟩) (callback G prev ⟨0, 0, 0, 0, 0, 0⟩).2.1 = 0 ∧
    roll (setCmds G ⟨0, 0, 0, 0, 0, 0⟩) (callback G prev ⟨0, 0, 0, 0, 0, 0⟩).2.1 = 0 ∧
    pitch (setCmds G ⟨0, 0, 0, 0, 0, 0⟩) (callback G prev ⟨0, 0, 0, 0, 0, 0⟩).2.1 = 0 ∧
    yaw (setCmds G ⟨0, 0, 0, 0, 0, 0⟩) (callback G prev ⟨0, 0, 0, 0, 0, 0⟩).2.1 = 0 := by
  set Gp := setCmds G ⟨0, 0, 0, 0, 0, 0⟩ with hGp
  have hw' : Gp.ang_v = ⟨0, 0, 0⟩ := by simp [hGp, setCmds, hw]
  have hfix : solveStep Gp zeroForces = zeroForces :=
    solveStep_fixes_zero Gp hw' (by simp [hGp, setCmds]) (by simp [hGp, setCmds])
      (by simp [hGp, setCmds]) (by simp [hGp, setCmds]) (by simp [hGp, setCmds])
      (by simp [hGp, setCmds])
  have hout : (callback G prev ⟨0, 0, 0, 0, 0, 0⟩).2.1 = zeroForces := by
    show solveForces Gp (reinitForces prev) = zeroForces
    rw [reinitForces_eq_zero, solveForces, Function.iterate_fixed hfix]
  refine ⟨hout, ?_, ?_, ?_, ?_, ?_, ?_⟩ <;> rw [hout] <;>
    [exact (residuals_vanish_at_zero Gp hw' (by simp [hGp, setCmds]) (by simp [hGp, setCmds])
        (by simp [hGp, setCmds]) (by simp [hGp, setCmds]) (by simp [hGp, setCmds])
        (by simp [hGp, setCmds])).1;
      exact (residuals_vanish_at_zero Gp hw' (by simp [hGp, setCmds]) (by simp [hGp, setCmds])
        (by simp [hGp, setCmds]) (by simp [hGp, setCmds]) (by simp [hGp, setCmds])
        (by simp [hGp, setCmds])).2.1;
      exact (residuals_vanish_at_zero Gp hw' (by simp [hGp, setCmds]) (by simp [hGp, setCmds])
        (by simp [hGp, setCmds]) (by simp [hGp, setCmds]) (by simp [hGp, setCmds])
        (by simp [hGp, setCmds])).2.2.1;
      exact (residuals_vanish_at_zero Gp hw' (by simp [hGp, setCmds]) (by simp [hGp, setCmds])
        (by simp [hGp, setCmds]) (by simp [hGp, setCmds]) (by simp [hGp, setCmds])
        (by simp [hGp, setCmds])).2.2.2.1;
      exact (residuals_vanish_at_zero Gp hw' (by simp [hGp, setCmds]) (by simp [hGp, setCmds])
        (by simp [hGp, setCmds]) (by simp [hGp, setCmds]) (by simp [hGp, setCmds])
        (by simp [hGp, setCmds])).2.2.2.2.1;
      exact (residuals_vanish_at_zero Gp hw' (by simp [hGp, setCmds]) (by simp [hGp, setCmds])
        (by simp [hGp, setCmds]) (by simp [hGp, setCmds]) (by simp [hGp, setCmds])
        (by simp [hGp, setCmds])).2.2.2.2.2]

/-- Claim C4 witness: the theorem applied at the constructed initial globals,
whose angular velocity is zero. -/
theorem zero_command_gives_zero_solution_witness :
    G_init0.ang_v = ⟨0, 0, 0⟩ ∧
    (callback G_init0 u_cx ⟨0, 0, 0, 0, 0, 0⟩).2.1 = zeroForces :=
  ⟨rfl, (zero_command_gives_zero_solution G_init0 u_cx rfl).1⟩

/-- Claim C8: the solve runs under a hard cap of 100 iterations (the
configuration of line 315) and returns the point reached at the cap, and one
command event publishes exactly one ThrustStamped message. -/
theorem solver_capped_and_publishes_once (G : Globals) (prev : Forces) (a : AccelMsg)
    (u : Forces) :
    options_max_num_iterations = 100 ∧
    solveForces G u = (solveStep G)^[options_max_num_iterations] u ∧
    (callback G prev a).2.2.length = 1 :=
  ⟨rfl, rfl, rfl⟩

/-- Claim C9: the published forces of the six thrusters surge_port_hi,
surge_stbd_hi, sway_fwd, sway_aft, heave_port_aft and heave_stbd_aft are
exactly zero on every command event: no residual expression reads them, so
their gradient is identically zero and the zero initial value never moves. -/
theorem unused_thrusters_published_zero (G : Globals) (prev : Forces) (a : AccelMsg) :
    (callback G prev a).2.1.surge_port_hi = 0 ∧
    (callback G prev a).2.1.surge_stbd_hi = 0 ∧
    (callback G prev a).2.1.sway_fwd = 0 ∧
    (callback G prev a).2.1.sway_aft = 0 ∧
    (callback G prev a).2.1.heave_port_aft = 0 ∧
    (callback G prev a).2.1.heave_stbd_aft = 0 := by
  have h : unusedZero (callback G prev a).2.1 := by
    show unusedZero (solveForces (setCmds G a) (reinitForces prev))
    rw [reinitForces_eq_zero, solveForces]
    exact iterate_preserves_unusedZero _ _ _ ⟨rfl, rfl, rfl, rfl, rfl, rfl⟩
  exact ⟨h.2.1, h.1, h.2.2.1, h.2.2.2.1, h.2.2.2.2.1, h.2.2.2.2.2⟩

/-- Claim C2 counterexample: in a reachable state with a fully mixed rotation
matrix, one newton on the sway_fwd thruster leaves the sway residual — and so
the modeled net sway force — unchanged, while the same newton on
surge_port_lo does change it: the lateral thrusters do not appear in the sway
equation at all, contrary to the claim that every thruster's force projects
into each translational axis and that sway_fwd/sway_aft contribute to sway
through their own mounting. -/
theorem sway_thrusters_absent_from_sway_equation :
    sway G_cx u_cx = sway G_cx zeroForces ∧
    sway G_cx { zeroForces with surge_port_lo := 1 } ≠ sway G_cx zeroForces := by
  constructor
  · simp [sway, u_cx, zeroForces]
  · norm_num [sway, G_cx, state, G_init0, initGlobals, matrixOfQuat, Mat3.identity,
      zeroForces, zeroVec, MASS]

/-- Claim C2 amended: each translational residual depends only on the four
thrusters surge_port_lo, surge_stbd_lo, heave_port_fwd and heave_stbd_fwd,
projected through the x and z entries of the corresponding rotation-matrix
row; the remaining six thrusters — in particular sway_fwd and sway_aft —
have zero coefficient in every translational equation. -/
theorem translational_residuals_read_only_four (G : Globals) (u v : Forces)
    (h1 : u.surge_port_lo = v.surge_port_lo) (h2 : u.surge_stbd_lo = v.surge_stbd_lo)
    (h3 : u.heave_port_fwd = v.heave_port_fwd) (h4 : u.heave_stbd_fwd = v.heave_stbd_fwd) :
    surge G u = surge G v ∧ sway G u = sway G v ∧ heave G u = heave G v := by
  refine ⟨?_, ?_, ?_⟩ <;> simp [surge, sway, heave, h1, h2, h3, h4]

/-- Claim C2 amended, witness: force vectors differing only on sway_fwd give
identical translational residuals. -/
theorem translational_residuals_read_only_four_witness :
    u_cx.surge_port_lo = zeroForces.surge_port_lo ∧
    u_cx.surge_stbd_lo = zeroForces.surge_stbd_lo ∧
    u_cx.heave_port_fwd = zeroForces.heave_port_fwd ∧
    u_cx.heave_stbd_fwd = zeroForces.heave_stbd_fwd ∧
    (surge G_cx u_cx = surge G_cx zeroForces ∧ sway G_cx u_cx = sway G_cx zeroForces ∧
      heave G_cx u_cx = heave G_cx zeroForces) :=
  ⟨rfl, rfl, rfl, rfl,
    translational_residuals_read_only_four G_cx u_cx zeroForces rfl rfl rfl rfl⟩

/-- Claim C7 counterexample: an inertial event carrying a wildly out-of-range
angular velocity (10⁹ rad/s) is not rejected — the stored VehicleState is
overwritten rather than retained. -/
theorem malformed_event_not_discarded :
    (state G_init0 malformedImu).ang_v ≠ G_init0.ang_v := by decide

/-- Claim C7 amended: the callbacks perform no input validation; every
inertial event unconditionally overwrites the stored angular velocity, and
every command event unconditionally overwrites the stored command and
publishes one new solution message. -/
theorem events_accepted_unconditionally (G : Globals) (prev : Forces) (m : ImuMsg)
    (a : AccelMsg) :
    (state G m).ang_v =
      ⟨m.angular_velocity_x, m.angular_velocity_y, m.angular_velocity_z⟩ ∧
    (callback G prev a).1.cmdSurge = a.linear_x ∧
    (callback G prev a).1.cmdSway = a.linear_y ∧
    (callback G prev a).1.cmdHeave = a.linear_z ∧
    (callback G prev a).1.cmdRoll = a.angular_x ∧
    (callback G prev a).1.cmdPitch = a.angular_y ∧
    (callback G prev a).1.cmdYaw = a.angular_z ∧
    (callback G prev a).2.2.length = 1 :=
  ⟨rfl, rfl, rfl, rfl, rfl, rfl, rfl, rfl⟩

/-- The Bullet quaternion-to-matrix formula with the scale factor `s` taken
as a parameter; `matrixOfQuat` is its instance at `s = 2/|q|²`. -/
def matrixOfQuatGen (qx qy qz qw s : ℚ) : Mat3 :=
  let xs := qx * s
  let ys := qy * s
  let zs := qz * s
  let wx := qw * xs
  let wy := qw * ys
  let wz := qw * zs
  let xx := qx * xs
  let xy := qx * ys
  let xz := qx * zs
  let yy := qy * ys
  let yz := qy * zs
  let zz := qz * zs
  ⟨1 - (yy + zz), xy - wz, xz + wy,
    xy + wz, 1 - (xx + zz), yz - wx,
    xz - wy, yz + wx, 1 - (xx + yy)⟩

/-- `matrixOfQuat` is the generic formula at the Bullet scale factor. -/
theorem matrixOfQuat_eq_gen (qx qy qz qw : ℚ) :
    matrixOfQuat qx qy qz qw =
      matrixOfQuatGen qx qy qz qw (2 / (qx * qx + qy * qy + qz * qz + qw * qw)) := rfl

/-- Whenever the scale factor satisfies `t * |q|² = 2`, the generic formula
yields an orthonormal matrix of unit determinant. -/
theorem matrixOfQuatGen_orthonormal (qx qy qz qw t : ℚ)
    (h : t * (qx * qx + qy * qy + qz * qz + qw * qw) = 2) :
    Mat3.mul (matrixOfQuatGen qx qy qz qw t)
        (Mat3.transpose (matrixOfQuatGen qx qy qz qw t)) = Mat3.identity ∧
    Mat3.det (matrixOfQuatGen qx qy qz qw t) = 1 := by
  constructor
  · simp only [matrixOfQuatGen, Mat3.mul, Mat3.transpose, Mat3.identity, Mat3.mk.injEq]
    refine ⟨?_, ?_, ?_, ?_, ?_, ?_, ?_, ?_, ?_⟩
    · linear_combination ((qy * qy + qz * qz) * t) * h
    · linear_combination (-(qx * qy * t)) * h
    · linear_combination (-(qx * qz * t)) * h
    · linear_combination (-(qx * qy * t)) * h
    · linear_combination ((qx * qx + qz * qz) * t) * h
    · linear_combination (-(qy * qz * t)) * h
    · linear_combination (-(qx * qz * t)) * h
    · linear_combination (-(qy * qz * t)) * h
    · linear_combination ((qx * qx + qy * qy) * t) * h
  · simp only [matrixOfQuatGen, Mat3.det]
    linear_combination ((qx * qx + qy * qy + qz * qz) * t) * h

/-- Rescaling the quaternion by `c` while dividing the scale factor by `c²`
leaves the generic formula unchanged. -/
theorem matrixOfQuatGen_scale (qx qy qz qw c u s : ℚ) (hsu : u * (c * c) = s) :
    matrixOfQuatGen (c * qx) (c * qy) (c * qz) (c * qw) u =
      matrixOfQuatGen qx qy qz qw s := by
  simp only [matrixOfQuatGen, Mat3.mk.injEq]
  refine ⟨?_, ?_, ?_, ?_, ?_, ?_, ?_, ?_, ?_⟩
  · linear_combination (-(qy * qy + qz * qz)) * hsu
  · linear_combination (qx * qy - qw * qz) * hsu
  · linear_combination (qx * qz + qw * qy) * hsu
  · linear_combination (qx * qy + qw * qz) * hsu
  · linear_combination (-(qx * qx + qz * qz)) * hsu
  · linear_combination (qy * qz - qw * qx) * hsu
  · linear_combination (qx * qz - qw * qy) * hsu
  · linear_combination (qy * qz + qw * qx) * hsu
  · linear_combination (-(qx * qx + qy * qy)) * hsu

/-- The quaternion-to-matrix formula yields an orthonormal matrix with unit
determinant for every nonzero quaternion. -/
theorem matrixOfQuat_orthonormal (qx qy qz qw : ℚ)
    (hq : qx * qx + qy * qy + qz * qz + qw * qw ≠ 0) :
    Mat3.mul (matrixOfQuat qx qy qz qw) (Mat3.transpose (matrixOfQuat qx qy qz qw)) =
      Mat3.identity ∧
    Mat3.det (matrixOfQuat qx qy qz qw) = 1 := by
  rw [matrixOfQuat_eq_gen]
  exact matrixOfQuatGen_orthonormal qx qy qz qw _ (div_mul_cancel₀ 2 hq)

/-- The quaternion-to-matrix formula is invariant under rescaling of the
quaternion: it already divides by the squared norm, so normalizing first
changes nothing. -/
theorem matrixOfQuat_scale_invariant (qx qy qz qw c : ℚ)
    (_hq : qx * qx + qy * qy + qz * qz + qw * qw ≠ 0) (hc : c ≠ 0) :
    matrixOfQuat (c * qx) (c * qy) (c * qz) (c * qw) = matrixOfQuat qx qy qz qw := by
  have hcc : c * c ≠ 0 := mul_ne_zero hc hc
  rw [matrixOfQuat_eq_gen, matrixOfQuat_eq_gen]
  refine matrixOfQuatGen_scale qx qy qz qw c _ _ ?_
  rw [show c * qx * (c * qx) + c * qy * (c * qy) + c * qz * (c * qz) + c * qw * (c * qw) =
      c * c * (qx * qx + qy * qy + qz * qz + qw * qw) from by ring]
  rw [div_mul_eq_mul_div, mul_comm 2 (c * c), mul_div_mul_left _ _ hcc]

/-- Claim C10: the rotation matrix stored by every inertial event is built
from the normalized input quaternion — rescaling the quaternion by any
nonzero factor yields the same matrix, so normalization is harmless — and for
every nonzero (in particular non-unit) orientation quaternion the stored
matrix is an orthonormal rotation (M·Mᵀ = I, det M = 1); the constructor
state has the identity rotation matrix and zero angular velocity. -/
theorem rotation_matrix_orthonormal_and_init (G : Globals) (m : ImuMsg) (c : ℚ)
    (psh pph ppl psl psf psa hpa hsa hsf hpf : vec3)
    (hq : m.orientation_x * m.orientation_x + m.orientation_y * m.orientation_y +
        m.orientation_z * m.orientation_z + m.orientation_w * m.orientation_w ≠ 0)
    (hc : c ≠ 0) :
    Mat3.mul (state G m).rotation_matrix (Mat3.transpose (state G m).rotation_matrix) =
      Mat3.identity ∧
    Mat3.det (state G m).rotation_matrix = 1 ∧
    matrixOfQuat (c * m.orientation_x) (c * m.orientation_y) (c * m.orientation_z)
        (c * m.orientation_w) =
      matrixOfQuat m.orientation_x m.orientation_y m.orientation_z m.orientation_w ∧
    (initGlobals psh pph ppl psl psf psa hpa hsa hsf hpf).rotation_matrix = Mat3.identity ∧
    (initGlobals psh pph ppl psl psf psa hpa hsa hsf hpf).ang_v = ⟨0, 0, 0⟩ := by
  have hR : (state G m).rotation_matrix =
      matrixOfQuat m.orientation_x m.orientation_y m.orientation_z m.orientation_w := rfl
  obtain ⟨h1, h2⟩ :=
    matrixOfQuat_orthonormal m.orientation_x m.orientation_y m.orientation_z m.orientation_w hq
  exact ⟨by rw [hR]; exact h1, by rw [hR]; exact h2,
    matrixOfQuat_scale_invariant m.orientation_x m.orientation_y m.orientation_z
      m.orientation_w c hq hc, rfl, rfl⟩

/-- Claim C10 witness: the theorem applied to the non-unit quaternion
(1, 2, 3, 4) and the scale factor 2. -/
theorem rotation_matrix_orthonormal_and_init_witness :
    ((1 : ℚ) * 1 + 2 * 2 + 3 * 3 + 4 * 4 ≠ 0) ∧ ((2 : ℚ) ≠ 0) ∧
    (Mat3.mul (state G_init0 ⟨1, 2, 3, 4, 0, 0, 0⟩).rotation_matrix
        (Mat3.transpose (state G_init0 ⟨1, 2, 3, 4, 0, 0, 0⟩).rotation_matrix) =
      Mat3.identity ∧
    Mat3.det (state G_init0 ⟨1, 2, 3, 4, 0, 0, 0⟩).rotation_matrix = 1 ∧
    matrixOfQuat (2 * 1) (2 * 2) (2 * 3) (2 * 4) = matrixOfQuat 1 2 3 4 ∧
    (initGlobals zeroVec zeroVec zeroVec zeroVec zeroVec zeroVec zeroVec zeroVec zeroVec
        zeroVec).rotation_matrix = Mat3.identity ∧
    (initGlobals zeroVec zeroVec zeroVec zeroVec zeroVec zeroVec zeroVec zeroVec zeroVec
        zeroVec).ang_v = ⟨0, 0, 0⟩) :=
  ⟨by norm_num, by norm_num,
    rotation_matrix_orthonormal_and_init G_init0 ⟨1, 2, 3, 4, 0, 0, 0⟩ 2 zeroVec zeroVec
      zeroVec zeroVec zeroVec zeroVec zeroVec zeroVec zeroVec zeroVec (by norm_num)
      (by norm_num)⟩
